import Mathlib

/-!
Verification of the mid-stream token pacing transform and the stream-relay
error framing of the ai-chatbot repository.

The pacing transform is embedded from `src/lib/ai/transform.ts`
(`typedTextTransform`): a `TransformStream` that, for each incoming chunk,
computes `timeSinceLastChunk = now - lastChunkTime` and, when the chunk has
`type === "text"` and `timeSinceLastChunk < MIN_DELAY_MS`, awaits
`MIN_DELAY_MS - timeSinceLastChunk` milliseconds before enqueueing the chunk;
afterwards it sets `lastChunkTime = Date.now()`.  Time is modelled as `Int`
milliseconds under an ideal scheduler: `setTimeout(_, d)` resumes exactly `d`
milliseconds later and the synchronous statements take zero time, so the
`Date.now()` executed right after the enqueue reads the emission instant.
The WHATWG Streams machinery awaits each `transform()` call before invoking
the next, so a chunk's `transform()` starts at the later of its upstream
ready time and the completion of the previous call.
-/

namespace AIChatbot

/-- A stream part as seen by the transform: the code only inspects the
`type` discriminator (`"text"` vs anything else) and forwards the chunk
value untouched, so one payload field suffices. -/
structure TextStreamPart where
  type : String
  content : String
deriving DecidableEq, Repr

/-- `const MIN_DELAY_MS = 20` from `src/lib/ai/transform.ts`. -/
def MIN_DELAY_MS : Int := 20

/-- The state captured by the transform closure: `let lastChunkTime = 0`. -/
structure PacingState where
  lastChunkTime : Int
deriving DecidableEq, Repr

/-- The closure's initial state: `lastChunkTime` starts at `0`. -/
def initPacingState : PacingState := ⟨0⟩

/-- Result of one `transform(chunk, controller)` call: the instant at which
`controller.enqueue(chunk)` runs, and the updated closure state. -/
structure StepResult where
  emitTime : Int
  newState : PacingState
deriving DecidableEq, Repr

/-- One `transform(chunk, controller)` call entered at instant `now`:
if the chunk is text and `now - lastChunkTime < MIN_DELAY_MS`, the call
awaits `MIN_DELAY_MS - (now - lastChunkTime)` ms and then enqueues, else it
enqueues immediately; in both paths `lastChunkTime = Date.now()` runs right
after the enqueue, i.e. reads the emission instant. -/
def transformStep (s : PacingState) (chunk : TextStreamPart) (now : Int) :
    StepResult :=
  if chunk.type = "text" ∧ now - s.lastChunkTime < MIN_DELAY_MS then
    { emitTime := now + (MIN_DELAY_MS - (now - s.lastChunkTime)),
      newState := ⟨now + (MIN_DELAY_MS - (now - s.lastChunkTime))⟩ }
  else
    { emitTime := now, newState := ⟨now⟩ }

/-- One chunk as observed downstream: its value and its emission instant. -/
structure Emission where
  chunk : TextStreamPart
  time : Int
deriving DecidableEq, Repr

/-- Run of the transform over a stream: each input is a pair of the instant
the upstream makes the chunk available and the chunk itself; `clock` is the
instant the previous `transform()` call returned (the stream start for the
first call), so a call begins at `max clock ready`. -/
def runTransform : PacingState → Int → List (Int × TextStreamPart) →
    List Emission
  | _, _, [] => []
  | s, clock, (ready, c) :: rest =>
    let r := transformStep s c (max clock ready)
    ⟨c, r.emitTime⟩ :: runTransform r.newState r.emitTime rest

/-- The `flush(controller)` hook body is a single `controller.terminate()`;
the controller records the emissions enqueued so far and how many times
`terminate()` has been called. -/
structure Controller where
  queue : List Emission
  terminated : Nat
deriving DecidableEq, Repr

/-- `controller.terminate()`. -/
def Controller.terminate (ctrl : Controller) : Controller :=
  { ctrl with terminated := ctrl.terminated + 1 }

/-- `flush(controller) { controller.terminate() }` from the source. -/
def flush (ctrl : Controller) : Controller :=
  ctrl.terminate

/-- A full stream run: all `transform()` calls followed by the `flush`
hook at upstream end-of-sequence. -/
def runStream (t0 : Int) (cs : List (Int × TextStreamPart)) : Controller :=
  flush { queue := runTransform initPacingState t0 cs, terminated := 0 }

/-! ### Basic lemmas about the pacing step -/

theorem transformStep_newState (s : PacingState) (c : TextStreamPart)
    (now : Int) :
    (transformStep s c now).newState.lastChunkTime =
      (transformStep s c now).emitTime := by
  unfold transformStep
  split <;> rfl

theorem transformStep_emitTime_ge (s : PacingState) (c : TextStreamPart)
    (now : Int) :
    now ≤ (transformStep s c now).emitTime := by
  unfold transformStep
  split
  · rename_i hc
    simp only
    omega
  · simp only
    omega

theorem transformStep_text_spacing (s : PacingState) (c : TextStreamPart)
    (now : Int) (ht : c.type = "text") :
    s.lastChunkTime + MIN_DELAY_MS ≤ (transformStep s c now).emitTime := by
  unfold transformStep
  split
  · simp only
    omega
  · rename_i hn
    simp only
    rw [Classical.not_and_iff_or_not_not] at hn
    rcases hn with hn | hn
    · exact absurd ht hn
    · omega

/-! ### Run-level lemmas -/

theorem runTransform_map_chunk (s : PacingState) (clock : Int)
    (cs : List (Int × TextStreamPart)) :
    (runTransform s clock cs).map Emission.chunk = cs.map Prod.snd := by
  induction cs generalizing s clock with
  | nil => rfl
  | cons hd tl ih =>
    obtain ⟨ready, c⟩ := hd
    simp only [runTransform, List.map_cons, List.cons.injEq]
    exact ⟨trivial, ih _ _⟩

theorem runTransform_length (s : PacingState) (clock : Int)
    (cs : List (Int × TextStreamPart)) :
    (runTransform s clock cs).length = cs.length := by
  have h := runTransform_map_chunk s clock cs
  have h1 := congrArg List.length h
  simpa using h1

theorem runTransform_head_text (s : PacingState) (clock : Int)
    (cs : List (Int × TextStreamPart))
    (e : Emission) (he : (runTransform s clock cs).head? = some e)
    (ht : e.chunk.type = "text") :
    s.lastChunkTime + MIN_DELAY_MS ≤ e.time := by
  cases cs with
  | nil => simp [runTransform] at he
  | cons hd tl =>
    obtain ⟨ready, c⟩ := hd
    simp only [runTransform, List.head?] at he
    have he2 : e = ⟨c, (transformStep s c (max clock ready)).emitTime⟩ :=
      (Option.some_injective _ he).symm
    subst he2
    exact transformStep_text_spacing s c (max clock ready) ht

theorem runTransform_chain (s : PacingState) (clock : Int)
    (cs : List (Int × TextStreamPart)) :
    List.Chain'
      (fun e1 e2 => e2.chunk.type = "text" → e1.time + MIN_DELAY_MS ≤ e2.time)
      (runTransform s clock cs) := by
  induction cs generalizing s clock with
  | nil => simp [runTransform]
  | cons hd tl ih =>
    obtain ⟨ready, c⟩ := hd
    simp only [runTransform]
    rw [List.chain'_cons']
    refine ⟨?_, ih _ _⟩
    intro e2 he2 ht
    set r := transformStep s c (max clock ready) with hr
    have hst : r.newState.lastChunkTime = r.emitTime :=
      transformStep_newState s c (max clock ready)
    have hb := runTransform_head_text r.newState r.emitTime tl e2 he2 ht
    show r.emitTime + MIN_DELAY_MS ≤ e2.time
    omega

/-! ### Stream relay error framing

The relay that bridges the upstream provider stream to the client SSE
connection is not part of the repository sources (the repository vendors the
provider documentation describing it); its behaviour is modelled from the
spec below. -/

/-- Modelled from the spec: the classified causes of an upstream failure
(invalid parameters, invalid API key, insufficient credits, rate limiting,
provider error, no available providers). -/
inductive ErrorCause where
  | invalidInput
  | invalidKey
  | insufficientCredits
  | rateLimited
  | providerUnavail
  | noProviders
deriving DecidableEq, Repr

/-- Modelled from the spec: HTTP status classification of a pre-flush
upstream failure (400 invalid parameters, 401 invalid key, 402 insufficient
credits, 429 rate limited, 502 provider error, 503 no providers). -/
def classifyStatus : ErrorCause → Nat
  | .invalidInput => 400
  | .invalidKey => 401
  | .insufficientCredits => 402
  | .rateLimited => 429
  | .providerUnavail => 502
  | .noProviders => 503

/-- The claim's coarser classification of pre-flush statuses, written from
the spec's words (400 invalid input, 401/402 auth or credit failure, 429
rate limiting, 502/503 upstream unavailability), to be compared with
`classifyStatus`. -/
def claimStatusClass : ErrorCause → Nat → Prop
  | .invalidInput, st => st = 400
  | .invalidKey, st => st = 401 ∨ st = 402
  | .insufficientCredits, st => st = 401 ∨ st = 402
  | .rateLimited, st => st = 429
  | .providerUnavail, st => st = 502 ∨ st = 503
  | .noProviders, st => st = 502 ∨ st = 503

/-- An event of the upstream provider stream: a content chunk, a failure
with its classified cause and error code/message, or normal end of stream
with usage counters. -/
inductive UpEvent where
  | chunk (content : String)
  | failure (cause : ErrorCause) (code : String) (message : String)
  | endOfStream (promptTokens completionTokens : Nat)
deriving DecidableEq, Repr

/-- Session metadata carried on every SSE data event. -/
structure SessionMeta where
  id : String
  model : String
  provider : String
  created : Int
deriving DecidableEq, Repr

/-- One SSE `data:` event as framed on the wire: the standard response
fields, one choice with a delta content and a finish reason, optional usage
and an optional top-level error object. -/
structure SSEData where
  id : String
  object : String
  created : Int
  model : String
  provider : String
  content : String
  finishReason : Option String
  usage : Option (Nat × Nat)
  errObj : Option (String × String)
deriving DecidableEq, Repr

/-- Modelled from the spec: the SSE data event framing a forwarded content
chunk (`finish_reason: null`, no error, no usage). -/
def contentEvent (m : SessionMeta) (content : String) : SSEData :=
  { id := m.id, object := "chat.completion.chunk", created := m.created,
    model := m.model, provider := m.provider, content := content,
    finishReason := none, usage := none, errObj := none }

/-- Modelled from the spec: the single unified mid-stream error event — the
error appears at the top level alongside the standard response fields, the
choice has empty delta content and `finish_reason: "error"`. -/
def midStreamErrorEvent (m : SessionMeta) (code message : String) : SSEData :=
  { id := m.id, object := "chat.completion.chunk", created := m.created,
    model := m.model, provider := m.provider, content := "",
    finishReason := some "error", usage := none,
    errObj := some (code, message) }

/-- Modelled from the spec: the final usage-bearing event on normal
completion. -/
def finalEvent (m : SessionMeta) (promptTokens completionTokens : Nat) :
    SSEData :=
  { id := m.id, object := "chat.completion.chunk", created := m.created,
    model := m.model, provider := m.provider, content := "",
    finishReason := some "stop", usage := some (promptTokens, completionTokens),
    errObj := none }

/-- The relay's observable response: either a pre-flush JSON error body with
a classified HTTP status (no SSE events at all), or a committed 200 SSE
response with its event sequence and a flag recording that the connection
was closed. -/
inductive RelayResponse where
  | jsonError (status : Nat) (code : String) (message : String)
  | sse (status : Nat) (events : List SSEData) (closed : Bool)
deriving DecidableEq, Repr

/-- The SSE data events a client observes on a relay response: a pre-flush
JSON error response carries none. -/
def RelayResponse.sseEvents : RelayResponse → List SSEData
  | .jsonError _ _ _ => []
  | .sse _ evs _ => evs

/-- Modelled from the spec: SSE framing of the upstream events once the
response is committed — content chunks are forwarded in order; a mid-stream
failure is framed as one unified error event after which the stream is
terminated (subsequent upstream events are not forwarded); normal end emits
the final usage-bearing event and closes. -/
def streamEvents (m : SessionMeta) : List UpEvent → List SSEData
  | [] => []
  | .chunk content :: rest => contentEvent m content :: streamEvents m rest
  | .failure _ code message :: _ => [midStreamErrorEvent m code message]
  | .endOfStream p c :: _ => [finalEvent m p c]

/-- Modelled from the spec: the relay session. If the upstream fails before
any chunk has been forwarded, the relay responds with a classified non-200
status and a single JSON error body; otherwise the 200 status is committed
at the first flush and the upstream events are framed as SSE data events,
the connection closing at stream end. -/
def runRelay (m : SessionMeta) (events : List UpEvent) : RelayResponse :=
  match events with
  | .failure cause code message :: _ =>
      .jsonError (classifyStatus cause) code message
  | evs => .sse 200 (streamEvents m evs) true

/-! ### Provider configuration endpoint

Embedded from the `POST` handler of the provider-configuration route
(`src/unnamed/part_001`): it checks the session, then requires truthy
`provider` and `apiKey` fields, then requires `provider` to be exactly
`"openrouter"` or `"deepinfra"`, and only then saves the configuration. -/

/-- The request body fields the handler destructures: each may be absent
(JS `undefined`) or a string (the empty string is falsy in JS). -/
structure PostBody where
  provider : Option String
  apiKey : Option String
deriving DecidableEq, Repr

/-- JS truthiness of a destructured string field: `undefined` and `""` are
falsy. -/
def truthy : Option String → Bool
  | none => false
  | some s => !s.isEmpty

/-- The handler's observable outcome: HTTP status, response message, and
the configuration passed to `saveProviderConfig` (none when storage is not
touched). -/
structure PostResult where
  status : Nat
  message : String
  saved : Option (String × String × String)
deriving DecidableEq, Repr

/-- The `POST` handler of the provider-configuration route: 401 when there
is no authenticated session, 400 when `provider` or `apiKey` is falsy, 400
when `provider` is neither `"openrouter"` nor `"deepinfra"`, otherwise the
configuration is saved for the session's user and a success body returned
(status 200). -/
def postProviderConfig (session : Option String) (body : PostBody) :
    PostResult :=
  match session with
  | none => { status := 401, message := "Unauthorized", saved := none }
  | some userId =>
    if ¬(truthy body.provider ∧ truthy body.apiKey) then
      { status := 400, message := "Provider and API key are required",
        saved := none }
    else if body.provider ≠ some "openrouter" ∧
        body.provider ≠ some "deepinfra" then
      { status := 400, message := "Invalid provider", saved := none }
    else
      { status := 200, message := "Provider configuration saved successfully",
        saved := some (userId, (body.provider.getD "", body.apiKey.getD "")) }

/-! ### Further run-level lemmas -/

theorem runTransform_consecutive (s : PacingState) (clock : Int)
    (cs : List (Int × TextStreamPart)) :
    ∀ (i : Nat) (e1 e2 : Emission),
      (runTransform s clock cs)[i]? = some e1 →
      (runTransform s clock cs)[i + 1]? = some e2 →
      e2.chunk.type = "text" → e1.time + MIN_DELAY_MS ≤ e2.time := by
  induction cs generalizing s clock with
  | nil =>
    intro i e1 e2 he1
    simp [runTransform] at he1
  | cons hd tl ih =>
    obtain ⟨ready, c⟩ := hd
    intro i e1 e2 he1 he2 ht
    simp only [runTransform] at he1 he2
    match i with
    | 0 =>
      rw [List.getElem?_cons_zero] at he1
      rw [List.getElem?_cons_succ] at he2
      have he1' := (Option.some_injective _ he1).symm
      subst he1'
      set r := transformStep s c (max clock ready) with hr
      have hhead : (runTransform r.newState r.emitTime tl).head? = some e2 := by
        cases htl : runTransform r.newState r.emitTime tl with
        | nil => rw [htl] at he2; simp at he2
        | cons x xs => rw [htl] at he2; simpa using he2
      have hb := runTransform_head_text r.newState r.emitTime tl e2 hhead ht
      have hst := transformStep_newState s c (max clock ready)
      rw [← hr] at hst
      show r.emitTime + MIN_DELAY_MS ≤ e2.time
      omega
    | j + 1 =>
      rw [List.getElem?_cons_succ] at he1
      rw [List.getElem?_cons_succ] at he2
      exact ih _ _ j e1 e2 he1 he2 ht

theorem runTransform_chunk_at (s : PacingState) (clock : Int)
    (cs : List (Int × TextStreamPart)) (i : Nat) (e : Emission) (rc : Int)
    (c : TextStreamPart) (he : (runTransform s clock cs)[i]? = some e)
    (hc : cs[i]? = some (rc, c)) : e.chunk = c := by
  have hmap := runTransform_map_chunk s clock cs
  have h3 : ((runTransform s clock cs).map Emission.chunk)[i]? =
      (cs.map Prod.snd)[i]? := by rw [hmap]
  rw [List.getElem?_map, List.getElem?_map, he, hc] at h3
  simpa using h3

theorem contentEvents_no_error (m : SessionMeta) (contents : List String) :
    (contents.map (contentEvent m)).filter
      (fun e => e.finishReason == some "error") = [] := by
  induction contents with
  | nil => rfl
  | cons hd tl ih =>
    simp only [List.map_cons, List.filter_cons]
    rw [if_neg (by simp [contentEvent])]
    exact ih

theorem streamEvents_append_failure (m : SessionMeta) (contents : List String)
    (cause : ErrorCause) (code message : String) (rest : List UpEvent) :
    streamEvents m
        (contents.map UpEvent.chunk ++ UpEvent.failure cause code message :: rest)
      = contents.map (contentEvent m) ++ [midStreamErrorEvent m code message] := by
  induction contents with
  | nil => rfl
  | cons hd tl ih =>
    simp only [List.map_cons, List.cons_append, streamEvents, List.append_eq]
    rw [ih]

/-! ### Claim theorems -/

/-- C1: for every input sequence, any two consecutively processed chunks in
which the second is a text chunk — in particular two consecutive text chunks
made available less than `MIN_DELAY_MS` apart — are emitted with spacing of
at least `MIN_DELAY_MS`, and the transform never reorders: the emitted chunk
sequence is exactly the input chunk sequence. -/
theorem pacing_min_spacing_no_reorder (t0 : Int)
    (cs : List (Int × TextStreamPart)) (i : Nat) (r1 r2 : Int)
    (c1 c2 : TextStreamPart)
    (h1 : cs[i]? = some (r1, c1)) (h2 : cs[i + 1]? = some (r2, c2))
    (ht1 : c1.type = "text") (ht2 : c2.type = "text")
    (hclose : r2 - r1 < MIN_DELAY_MS) :
    (∀ e1 e2 : Emission,
        (runTransform initPacingState t0 cs)[i]? = some e1 →
        (runTransform initPacingState t0 cs)[i + 1]? = some e2 →
        e1.time + MIN_DELAY_MS ≤ e2.time) ∧
      (runTransform initPacingState t0 cs).map Emission.chunk =
        cs.map Prod.snd := by
  refine ⟨?_, runTransform_map_chunk _ _ _⟩
  intro e1 e2 he1 he2
  have hc2 : e2.chunk = c2 :=
    runTransform_chunk_at initPacingState t0 cs (i + 1) e2 r2 c2 he2 h2
  exact runTransform_consecutive initPacingState t0 cs i e1 e2 he1 he2
    (by rw [hc2]; exact ht2)

/-- Witness for C1 at a concrete stream: two text chunks made available 5 ms
apart. -/
theorem pacing_min_spacing_no_reorder_witness :
    (∀ e1 e2 : Emission,
        (runTransform initPacingState 1000
          [(1000, ⟨"text", "Hello"⟩), (1005, ⟨"text", " world"⟩)])[0]? =
            some e1 →
        (runTransform initPacingState 1000
          [(1000, ⟨"text", "Hello"⟩), (1005, ⟨"text", " world"⟩)])[0 + 1]? =
            some e2 →
        e1.time + MIN_DELAY_MS ≤ e2.time) ∧
      (runTransform initPacingState 1000
          [(1000, ⟨"text", "Hello"⟩), (1005, ⟨"text", " world"⟩)]).map
          Emission.chunk =
        [(1000, (⟨"text", "Hello"⟩ : TextStreamPart)),
          (1005, ⟨"text", " world"⟩)].map Prod.snd :=
  pacing_min_spacing_no_reorder 1000
    [(1000, ⟨"text", "Hello"⟩), (1005, ⟨"text", " world"⟩)] 0 1000 1005
    ⟨"text", "Hello"⟩ ⟨"text", " world"⟩ rfl rfl rfl rfl (by decide)

/-- C2: the transform is the identity on chunk values — the output sequence
carries exactly the input chunks, in order and unmodified, with equal
length (no chunk dropped, merged, or duplicated). -/
theorem pacing_identity_on_chunks (t0 : Int)
    (cs : List (Int × TextStreamPart)) :
    (runTransform initPacingState t0 cs).map Emission.chunk =
        cs.map Prod.snd ∧
      (runTransform initPacingState t0 cs).length = cs.length :=
  ⟨runTransform_map_chunk _ _ _, runTransform_length _ _ _⟩

/-- C5: a chunk whose type is not `"text"` is forwarded immediately — its
emission instant is the call instant and the new timestamp is that instant —
regardless of the previous emission timestamp. -/
theorem nontext_forwarded_immediately (s : PacingState) (c : TextStreamPart)
    (now : Int) (h : c.type ≠ "text") :
    transformStep s c now = ⟨now, ⟨now⟩⟩ := by
  unfold transformStep
  rw [if_neg]
  rintro ⟨hc, -⟩
  exact h hc

/-- Witness for C5: a tool-call chunk arriving 5 ms after the previous
emission is emitted with zero added delay. -/
theorem nontext_forwarded_immediately_witness :
    transformStep ⟨100⟩ ⟨"tool-call", "t"⟩ 105 = ⟨105, ⟨105⟩⟩ :=
  nontext_forwarded_immediately ⟨100⟩ ⟨"tool-call", "t"⟩ 105 (by decide)

/-- C6: on a monotone clock, the added delay of a text chunk that triggers a
wait is `MIN_DELAY_MS - (now - lastChunkTime)`, strictly positive and at
most `MIN_DELAY_MS`; in every other case the chunk is emitted with zero
added delay; and `MIN_DELAY_MS` is 20 ms. -/
theorem pacing_delay_bounded (s : PacingState) (c : TextStreamPart)
    (now : Int) (h0 : s.lastChunkTime ≤ now) :
    (c.type = "text" ∧ now - s.lastChunkTime < MIN_DELAY_MS →
        0 < (transformStep s c now).emitTime - now ∧
          (transformStep s c now).emitTime - now ≤ MIN_DELAY_MS) ∧
      (¬(c.type = "text" ∧ now - s.lastChunkTime < MIN_DELAY_MS) →
        (transformStep s c now).emitTime = now) ∧
      MIN_DELAY_MS = 20 := by
  refine ⟨?_, ?_, rfl⟩
  · intro hc
    obtain ⟨hty, hlt⟩ := hc
    unfold transformStep
    rw [if_pos]
    · simp only
      omega
    · exact ⟨hty, hlt⟩
  · intro hc
    unfold transformStep
    rw [if_neg hc]

/-- Witness for C6 at a concrete wait: previous emission at 100 ms, text
chunk at 110 ms. -/
theorem pacing_delay_bounded_witness :
    ((⟨"text", "hi"⟩ : TextStreamPart).type = "text" ∧
        (110 : Int) - (100 : Int) < MIN_DELAY_MS →
        0 < (transformStep ⟨100⟩ ⟨"text", "hi"⟩ 110).emitTime - 110 ∧
          (transformStep ⟨100⟩ ⟨"text", "hi"⟩ 110).emitTime - 110 ≤
            MIN_DELAY_MS) ∧
      (¬((⟨"text", "hi"⟩ : TextStreamPart).type = "text" ∧
          (110 : Int) - (100 : Int) < MIN_DELAY_MS) →
        (transformStep ⟨100⟩ ⟨"text", "hi"⟩ 110).emitTime = 110) ∧
      MIN_DELAY_MS = 20 := by
  have h := pacing_delay_bounded ⟨100⟩ ⟨"text", "hi"⟩ 110 (by decide)
  simpa using h

/-- C8: at upstream end-of-sequence the flush hook signals completion to the
downstream sink exactly once and enqueues nothing beyond the chunks the
transform already emitted. -/
theorem flush_terminates_exactly_once (t0 : Int)
    (cs : List (Int × TextStreamPart)) :
    (runStream t0 cs).terminated = 1 ∧
      (runStream t0 cs).queue = runTransform initPacingState t0 cs :=
  ⟨rfl, rfl⟩

/-- C9: since `lastChunkTime` starts at 0, the first chunk of a stream is
emitted at its call instant with zero added delay — even a text chunk —
whenever the wall clock at stream start is at least `MIN_DELAY_MS`
(always true for a millisecond Unix epoch clock). -/
theorem first_chunk_zero_delay (t0 ready : Int) (c : TextStreamPart)
    (rest : List (Int × TextStreamPart)) (h : MIN_DELAY_MS ≤ max t0 ready) :
    (runTransform initPacingState t0 ((ready, c) :: rest)).head? =
      some ⟨c, max t0 ready⟩ := by
  have hcond : ¬(c.type = "text" ∧
      max t0 ready - initPacingState.lastChunkTime < MIN_DELAY_MS) := by
    rintro ⟨-, hlt⟩
    simp only [initPacingState] at hlt
    omega
  simp only [runTransform, List.head?, transformStep, if_neg hcond]

/-- Witness for C9: a text chunk opening a stream at 1000 ms is emitted at
1000 ms. -/
theorem first_chunk_zero_delay_witness :
    (runTransform initPacingState 1000
        [((1000 : Int), (⟨"text", "hi"⟩ : TextStreamPart))]).head? =
      some ⟨⟨"text", "hi"⟩, max 1000 1000⟩ :=
  first_chunk_zero_delay 1000 1000 ⟨"text", "hi"⟩ [] (by decide)

/-- C3: when the upstream fails after at least one chunk has been flushed,
the relay keeps the committed 200 status, forwards the already-flushed
chunks, appends exactly one SSE error event — carrying `finish_reason
"error"` and the top-level error code/message alongside the standard
response fields — terminates the stream right after it (later upstream
events are not forwarded), and closes the connection. -/
theorem midstream_failure_framing (m : SessionMeta) (contents : List String)
    (hne : contents ≠ []) (cause : ErrorCause) (code message : String)
    (rest : List UpEvent) :
    runRelay m
        (contents.map UpEvent.chunk ++ UpEvent.failure cause code message :: rest)
      = RelayResponse.sse 200
          (contents.map (contentEvent m) ++ [midStreamErrorEvent m code message])
          true ∧
      ((contents.map (contentEvent m) ++ [midStreamErrorEvent m code message]).filter
          (fun e => e.finishReason == some "error")).length = 1 ∧
      (midStreamErrorEvent m code message).finishReason = some "error" ∧
      (midStreamErrorEvent m code message).errObj = some (code, message) := by
  refine ⟨?_, ?_, rfl, rfl⟩
  · obtain ⟨c0, cs'⟩ := List.exists_cons_of_ne_nil hne
    obtain ⟨tl, htl⟩ := cs'
    subst htl
    simp only [List.map_cons, List.cons_append]
    show RelayResponse.sse 200
        (streamEvents m
          (UpEvent.chunk c0 ::
            (tl.map UpEvent.chunk ++ UpEvent.failure cause code message :: rest)))
        true = _
    rw [show streamEvents m
          (UpEvent.chunk c0 ::
            (tl.map UpEvent.chunk ++ UpEvent.failure cause code message :: rest))
        = contentEvent m c0 :: streamEvents m
            (tl.map UpEvent.chunk ++ UpEvent.failure cause code message :: rest)
      from rfl]
    rw [streamEvents_append_failure]
  · rw [List.filter_append, contentEvents_no_error]
    simp [midStreamErrorEvent]

/-- Witness for C3: one `"Hello"` chunk followed by a rate-limit failure. -/
theorem midstream_failure_framing_witness :
    runRelay ⟨"cmpl-1", "gpt", "openai", 1⟩
        (["Hello"].map UpEvent.chunk ++
          UpEvent.failure ErrorCause.rateLimited "rate_limited" "slow" :: [])
      = RelayResponse.sse 200
          (["Hello"].map (contentEvent ⟨"cmpl-1", "gpt", "openai", 1⟩) ++
            [midStreamErrorEvent ⟨"cmpl-1", "gpt", "openai", 1⟩
              "rate_limited" "slow"])
          true ∧
      ((["Hello"].map (contentEvent ⟨"cmpl-1", "gpt", "openai", 1⟩) ++
          [midStreamErrorEvent ⟨"cmpl-1", "gpt", "openai", 1⟩
            "rate_limited" "slow"]).filter
          (fun e => e.finishReason == some "error")).length = 1 ∧
      (midStreamErrorEvent ⟨"cmpl-1", "gpt", "openai", 1⟩
          "rate_limited" "slow").finishReason = some "error" ∧
      (midStreamErrorEvent ⟨"cmpl-1", "gpt", "openai", 1⟩
          "rate_limited" "slow").errObj = some ("rate_limited", "slow") :=
  midstream_failure_framing ⟨"cmpl-1", "gpt", "openai", 1⟩ ["Hello"]
    (by decide) ErrorCause.rateLimited "rate_limited" "slow" []

/-- C7: when the upstream fails before any chunk has been forwarded, the
relay responds with a single JSON error body, the status is the non-200
classification of the cause (400 invalid input, 401/402 auth or credit
failure, 429 rate limiting, 502/503 upstream unavailability), and zero SSE
data events are emitted on the connection. -/
theorem prestream_failure_response (m : SessionMeta) (cause : ErrorCause)
    (code message : String) (rest : List UpEvent) :
    runRelay m (UpEvent.failure cause code message :: rest) =
        RelayResponse.jsonError (classifyStatus cause) code message ∧
      classifyStatus cause ≠ 200 ∧
      claimStatusClass cause (classifyStatus cause) ∧
      (runRelay m (UpEvent.failure cause code message :: rest)).sseEvents =
        [] := by
  refine ⟨rfl, ?_, ?_, rfl⟩
  · cases cause <;> decide
  · cases cause <;> simp [claimStatusClass, classifyStatus]

theorem postProviderConfig_valid (userId : String) (body : PostBody)
    (hp : body.provider = some "openrouter" ∨
      body.provider = some "deepinfra")
    (hk : truthy body.apiKey = true) :
    postProviderConfig (some userId) body =
      ⟨200, "Provider configuration saved successfully",
        some (userId, (body.provider.getD "", body.apiKey.getD ""))⟩ := by
  have htp : truthy body.provider = true := by
    rcases hp with hp | hp <;> rw [hp] <;> rfl
  simp only [postProviderConfig]
  rw [if_neg (not_not_intro ⟨htp, hk⟩), if_neg]
  rintro ⟨hn1, hn2⟩
  rcases hp with hp | hp
  · exact hn1 hp
  · exact hn2 hp

theorem postProviderConfig_invalid (userId : String) (body : PostBody)
    (hval : ¬((body.provider = some "openrouter" ∨
        body.provider = some "deepinfra") ∧ truthy body.apiKey = true)) :
    (postProviderConfig (some userId) body).status = 400 ∧
      (postProviderConfig (some userId) body).saved = none := by
  simp only [postProviderConfig]
  split
  · exact ⟨rfl, rfl⟩
  · rename_i hguard
    rw [Classical.not_not] at hguard
    split
    · exact ⟨rfl, rfl⟩
    · rename_i hinv
      exfalso
      apply hval
      refine ⟨?_, hguard.2⟩
      rcases Classical.not_and_iff_or_not_not.mp hinv with hn | hn
      · exact Or.inl (Classical.not_not.mp hn)
      · exact Or.inr (Classical.not_not.mp hn)

/-- C10: the provider-configuration POST saves a configuration exactly when
the request is authenticated, `provider` is `"openrouter"` or
`"deepinfra"`, and `apiKey` is truthy; every other authenticated body gets
status 400 with nothing saved, and an unauthenticated request gets 401 with
nothing saved. -/
theorem post_provider_config_validation :
    (∀ body : PostBody,
        postProviderConfig none body = ⟨401, "Unauthorized", none⟩) ∧
      (∀ (userId : String) (body : PostBody),
        (postProviderConfig (some userId) body).saved ≠ none ↔
          (body.provider = some "openrouter" ∨
              body.provider = some "deepinfra") ∧
            truthy body.apiKey = true) ∧
      (∀ (userId : String) (body : PostBody),
        (postProviderConfig (some userId) body).status = 400 ↔
          ¬((body.provider = some "openrouter" ∨
              body.provider = some "deepinfra") ∧
            truthy body.apiKey = true)) := by
  refine ⟨fun _ => rfl, ?_, ?_⟩
  · intro userId body
    by_cases hval : (body.provider = some "openrouter" ∨
        body.provider = some "deepinfra") ∧ truthy body.apiKey = true
    · rw [postProviderConfig_valid userId body hval.1 hval.2]
      exact ⟨fun _ => hval, fun _ => by simp⟩
    · have h := postProviderConfig_invalid userId body hval
      rw [h.2]
      exact ⟨fun hcon => absurd rfl hcon, fun hv => absurd hv hval⟩
  · intro userId body
    by_cases hval : (body.provider = some "openrouter" ∨
        body.provider = some "deepinfra") ∧ truthy body.apiKey = true
    · rw [postProviderConfig_valid userId body hval.1 hval.2]
      exact ⟨fun hcon => by simp at hcon, fun hnv => absurd hval hnv⟩
    · have h := postProviderConfig_invalid userId body hval
      exact ⟨fun _ => hval, fun _ => h.1⟩

end AIChatbot
